import Mathlib

/-
Verification of the classification engine and identity-resolution logic of
nifti2bids.py (a NIfTI-to-BIDS reorganization script).  The Python source is
shallowly embedded: pandas cells become an inductive `Cell` type, the mapping
DataFrame a `DataFrame` structure, Python exceptions a `PyResult` sum, and the
rule chain of `get_bids_category` a first-match-wins chain of conditionals.
-/

namespace NiftiToBids

/-- Recognizer for a list being an initial segment of another, used to model
Python substring tests character by character. -/
def listStarts : List Char → List Char → Bool
  | [], _ => true
  | _ :: _, [] => false
  | a :: as, b :: bs => a == b && listStarts as bs

/-- Containment of `needle` as a contiguous run inside a character list. -/
def listHas (needle : List Char) : List Char → Bool
  | [] => listStarts needle []
  | b :: bs => listStarts needle (b :: bs) || listHas needle bs

/-- Python `needle in hay` on strings: substring containment (an empty needle
is contained in every string, as in Python). -/
def strIn (needle hay : String) : Bool :=
  listHas needle.toList hay.toList

/-- Whitespace set of Python `str.strip()` (the ASCII whitespace characters
stripped by default; non-ASCII whitespace is out of this model's scope). -/
def pyIsSpace (c : Char) : Bool :=
  c = ' ' || c = '\t' || c = '\n' || c = '\r' || c = '\x0b' || c = '\x0c'

/-- Helper for stripping: drop leading whitespace from a character list. -/
def dropLeadingWs : List Char → List Char
  | [] => []
  | c :: cs => if pyIsSpace c then dropLeadingWs cs else c :: cs

/-- Python `s.strip()`: remove whitespace from both ends. -/
def pyStrip (s : String) : String :=
  String.mk ((dropLeadingWs (dropLeadingWs s.toList).reverse).reverse)

/-- Lowercasing of one ASCII character, as `str.lower()` acts on the
column-name alphabet this script meets. -/
def pyLowerChar (c : Char) : Char :=
  if 'A' ≤ c && c ≤ 'Z' then Char.ofNat (c.toNat + 32) else c

/-- Python `s.lower()`. -/
def pyLower (s : String) : String :=
  String.mk (s.toList.map pyLowerChar)

/-- Outcome of a Python expression: a value, or an uncaught exception carrying
its message. -/
inductive PyResult (α : Type) where
  | ok (val : α)
  | raised (msg : String)
deriving DecidableEq

/-- Value of one pandas cell as the script can observe it: a string, an
integer (covering integral numerics), or NaN (the value pandas puts in an
empty cell). -/
inductive Cell where
  | str (s : String)
  | int (n : Int)
  | nan
deriving DecidableEq

/-- Python `str(cell)` / pandas `.astype(str)`: decimal form for integers,
the literal text "nan" for NaN. -/
def cellToString : Cell → String
  | .str s => s
  | .int n => toString n
  | .nan => "nan"

/-- Model of `pd.isna`. -/
def isna : Cell → Bool
  | .nan => true
  | _ => false

/-- Accumulator run over decimal digits; `none` at the first non-digit. -/
def natOfDigitsAux : List Char → Nat → Option Nat
  | [], acc => some acc
  | c :: cs, acc =>
    if c.isDigit then natOfDigitsAux cs (acc * 10 + (c.toNat - 48)) else none

/-- Value of a non-empty all-digit run, `none` otherwise. -/
def natOfDigits : List Char → Option Nat
  | [] => none
  | cs => natOfDigitsAux cs 0

/-- Decimal integer literal as Python `int(str)` accepts it once surrounding
whitespace is gone: an optional sign followed by at least one digit. -/
def pyParseInt : List Char → Option Int
  | [] => none
  | '-' :: rest => (natOfDigits rest).map (fun n => -(n : Int))
  | '+' :: rest => (natOfDigits rest).map (fun n => (n : Int))
  | cs => (natOfDigits cs).map (fun n => (n : Int))

/-- Python `int(cell)`: identity on integers, ValueError on NaN, and on a
string the decimal-literal parse (surrounding whitespace and an optional sign
allowed), raising ValueError when the text is not numeric. -/
def pyInt : Cell → PyResult Int
  | .int n => .ok n
  | .nan => .raised "ValueError: cannot convert NaN to integer"
  | .str s =>
    match pyParseInt (pyStrip s).toList with
    | some n => .ok n
    | none => .raised "ValueError: invalid literal for int"

/-- Character-list body of Python `str.zfill`: left-pad with zeros up to
`width`, keeping a leading sign in front of the padding. -/
def zfillList (width : Nat) : List Char → List Char
  | [] => List.replicate width '0'
  | c :: rest =>
    if c = '-' || c = '+' then
      c :: (List.replicate (width - (rest.length + 1)) '0' ++ rest)
    else
      List.replicate (width - (rest.length + 1)) '0' ++ (c :: rest)

/-- Python `s.zfill(width)`. -/
def zfill (width : Nat) (s : String) : String :=
  String.mk (zfillList width s.toList)

/-- The mapping table: column names plus rows of cells aligned positionally
with the columns (the shape `pd.read_csv` produces). -/
structure DataFrame where
  columns : List String
  rows : List (List Cell)
deriving DecidableEq

/-- Line 33: `mapping_df.columns = mapping_df.columns.str.strip().str.lower()`. -/
def normalizeColumns (df : DataFrame) : DataFrame :=
  { df with columns := df.columns.map (fun c => pyLower (pyStrip c)) }

/-- Line 35: the startup requirement `{"accession", "record_id"}.issubset(columns)`. -/
def checkColumns (df : DataFrame) : Bool :=
  df.columns.contains "accession" && df.columns.contains "record_id"

/-- Lines 32-36: normalize the header, then require the two columns, raising
ValueError otherwise. -/
def loadMapping (df : DataFrame) : PyResult DataFrame :=
  let ndf := normalizeColumns df
  if checkColumns ndf then .ok ndf
  else .raised "ValueError: Mapping file must contain Accession and Record_ID columns."

/-- Position of a column in the header; `none` models a pandas KeyError on
column access. -/
def findCol (df : DataFrame) (c : String) : Option Nat :=
  List.findIdx? (fun x => x == c) df.columns

/-- Cell of a row at a column position; a short row reads as NaN, as a missing
value does in pandas. -/
def cellAt (row : List Cell) (j : Nat) : Cell :=
  row.getD j Cell.nan

/-- Line 84: the rows whose stringified, trimmed cell in column `i` equals the
(already trimmed) accession. -/
def matchingRows (df : DataFrame) (i : Nat) (accession : String) : List (List Cell) :=
  df.rows.filter (fun r => pyStrip (cellToString (cellAt r i)) == accession)

/-- Lines 81-96: the per-subject label computation.  Strip the folder name,
filter on the `newaccession` column (KeyError when absent), fall back to
`sub-<accession>` on no match or a NaN/blank record_id, otherwise coerce the
first match's record_id with `int` (an uncaught ValueError when non-numeric)
and build `sub-RID<zfill 4>`. -/
def resolveSubject (df : DataFrame) (rawId : String) : PyResult String :=
  let accession := pyStrip rawId
  match findCol df "newaccession" with
  | none => .raised "KeyError: newaccession"
  | some i =>
    match matchingRows df i accession with
    | [] => .ok ("sub-" ++ accession)
    | row :: _ =>
      match findCol df "record_id" with
      | none => .raised "KeyError: record_id"
      | some j =>
        let record_id := cellAt row j
        if isna record_id || pyStrip (cellToString record_id) == "" then
          .ok ("sub-" ++ accession)
        else
          match pyInt record_id with
          | .raised e => .raised e
          | .ok n => .ok ("sub-RID" ++ zfill 4 (toString n))

/-- Fields of a JSON sidecar that `get_bids_category` reads, with the `.get`
defaults already applied (missing `SequenceName` is `""`, missing `ImageType`
is `[]`). -/
structure JsonInfo where
  SequenceName : String
  ImageType : List String
deriving DecidableEq

/-- Lines 43-72: the rule-based classifier.  First-match-wins chain of
substring tests over the filename and the underscore-joined ImageType. -/
def get_bids_category (json_info : JsonInfo) (filename : String) :
    Option (String × String) :=
  let seqname := json_info.SequenceName
  let imagetype := String.intercalate "_" json_info.ImageType
  let fname := filename
  if strIn "BOLD" fname && strIn "ORIGINAL" imagetype && strIn "DIS2D" imagetype then
    some ("func", "task-rest_bold")
  else if strIn "AXIAL_T2" fname && !(strIn "SWI" fname) && strIn "ORIGINAL" imagetype then
    some ("anat", "acq-axial_T2w")
  else if strIn "COR_T1_IR" fname && strIn "ORIGINAL" imagetype then
    some ("anat", "acq-hippocampalIR_T1w")
  else if strIn "COR_T2" fname && strIn "ORIGINAL" imagetype then
    some ("anat", "acq-hippcor_T2w")
  else if strIn "T2_FLAIR" fname && strIn "ORIGINAL" imagetype then
    some ("anat", "FLAIR")
  else if strIn "SAG_T1_MPRAGE" fname && strIn "ORIGINAL" imagetype then
    some ("anat", "acq-mprage_T1w")
  else if strIn "DTI" fname && strIn "TOPUP" fname && strIn "ORIGINAL" imagetype then
    some ("fmap", "acq-topup_dwi")
  else if strIn "DTI" fname && strIn "ORIGINAL" imagetype then
    some ("dwi", "dwi")
  else if strIn "DTI" fname && strIn "DERIVED" imagetype && strIn "ADC" imagetype then
    some ("dwi", "ADC")
  else if strIn "DTI" fname && strIn "DERIVED" imagetype && strIn "TRACEW" imagetype then
    some ("dwi", "trace")
  else if strIn "DTI" fname && strIn "DERIVED" imagetype && strIn "FA" imagetype then
    some ("dwi", "FA")
  else
    none

/-- Lines 131-143: the extensions copied for one classified file.  The image
and its JSON sidecar always; the two gradient-table sidecars exactly when the
BIDS suffix is `dwi` and both exist beside the source image. -/
def copiedExtensions (bids_suffix : String) (bvalExists bvecExists : Bool) :
    List String :=
  [".nii.gz", ".json"] ++
    (if bids_suffix == "dwi" && bvalExists && bvecExists then [".bval", ".bvec"] else [])

/-- Length bound of zero-filling: the result never gets shorter than the
requested width. -/
theorem zfillList_length (w : Nat) (cs : List Char) : w ≤ (zfillList w cs).length := by
  cases cs with
  | nil => simp [zfillList]
  | cons c rest =>
    simp only [zfillList]
    split_ifs <;> simp <;> omega

/-- Length bound of `zfill` on strings. -/
theorem zfill_length (w : Nat) (s : String) : w ≤ (zfill w s).length :=
  zfillList_length w s.toList

/-- Mapping table whose normalized header is exactly the pair of columns the
startup check requires. -/
def dfAccessionOnly : DataFrame :=
  ⟨["accession", "record_id"], [[Cell.str "A1", Cell.int 7]]⟩

/-- Mapping table carrying all three columns the script touches, with a
non-numeric record_id for accession "A1". -/
def dfNonNumeric : DataFrame :=
  ⟨["accession", "newaccession", "record_id"],
   [[Cell.str "X1", Cell.str "A1", Cell.str "abc"]]⟩

/-- Mapping table whose record_id for accession "A1" has five digits. -/
def dfBigId : DataFrame :=
  ⟨["newaccession", "record_id"], [[Cell.str "A1", Cell.int 12345]]⟩

/-- Mapping table mapping the accession "RID0042" to record_id 42. -/
def dfRid : DataFrame :=
  ⟨["newaccession", "record_id"], [[Cell.str "RID0042", Cell.int 42]]⟩

example : get_bids_category ⟨"", ["ORIGINAL", "DIS2D"]⟩ "BOLD_run1" =
    some ("func", "task-rest_bold") := by decide

example : resolveSubject ⟨["newaccession", "record_id"], [[Cell.str "A123", Cell.int 42]]⟩
    "A123" = .ok "sub-RID0042" := by decide

example : resolveSubject ⟨["newaccession", "record_id"], [[Cell.str "A123", Cell.int 42]]⟩
    "A123 " = .ok "sub-RID0042" := by decide

/-- Claim C3 as frozen is false: a filename containing "DTI" with ImageType
containing ORIGINAL, DERIVED and ADC need not classify as `(dwi, dwi)` — the
filename "DTI_TOPUP_b0" satisfies all of the claim's conditions yet rule 7
fires first and yields `(fmap, acq-topup_dwi)`. -/
theorem C3_cex :
    strIn "DTI" "DTI_TOPUP_b0" = true ∧
    strIn "ORIGINAL" (String.intercalate "_" ["ORIGINAL", "DERIVED", "ADC"]) = true ∧
    strIn "DERIVED" (String.intercalate "_" ["ORIGINAL", "DERIVED", "ADC"]) = true ∧
    strIn "ADC" (String.intercalate "_" ["ORIGINAL", "DERIVED", "ADC"]) = true ∧
    get_bids_category ⟨"", ["ORIGINAL", "DERIVED", "ADC"]⟩ "DTI_TOPUP_b0" =
      some ("fmap", "acq-topup_dwi") ∧
    get_bids_category ⟨"", ["ORIGINAL", "DERIVED", "ADC"]⟩ "DTI_TOPUP_b0" ≠
      some ("dwi", "dwi") := by
  decide

/-- Claim C3 (amended): for a record whose filename contains "DTI" and whose
joined ImageType contains ORIGINAL, DERIVED and ADC, and which triggers none
of the earlier rules' filename tokens (BOLD, AXIAL_T2, COR_T1_IR, COR_T2,
T2_FLAIR, SAG_T1_MPRAGE, TOPUP), the classifier returns `(dwi, dwi)`: rule 8
fires before rules 9-11, so the ADC rule is shadowed. -/
theorem C3_rule8_shadows_adc (sq : String) (it : List String) (fname : String)
    (hDTI : strIn "DTI" fname = true)
    (hORIG : strIn "ORIGINAL" (String.intercalate "_" it) = true)
    (hDER : strIn "DERIVED" (String.intercalate "_" it) = true)
    (hADC : strIn "ADC" (String.intercalate "_" it) = true)
    (hBOLD : strIn "BOLD" fname = false)
    (hAX : strIn "AXIAL_T2" fname = false)
    (hIR : strIn "COR_T1_IR" fname = false)
    (hCT : strIn "COR_T2" fname = false)
    (hFL : strIn "T2_FLAIR" fname = false)
    (hMP : strIn "SAG_T1_MPRAGE" fname = false)
    (hTOP : strIn "TOPUP" fname = false) :
    get_bids_category ⟨sq, it⟩ fname = some ("dwi", "dwi") := by
  simp [get_bids_category, hDTI, hORIG, hBOLD, hAX, hIR, hCT, hFL, hMP, hTOP]

/-- Witness for `C3_rule8_shadows_adc` at the concrete record
`("DTI_run", ImageType = [ORIGINAL, DERIVED, ADC])`. -/
theorem C3_rule8_shadows_adc_w :
    get_bids_category ⟨"", ["ORIGINAL", "DERIVED", "ADC"]⟩ "DTI_run" =
      some ("dwi", "dwi") :=
  C3_rule8_shadows_adc "" ["ORIGINAL", "DERIVED", "ADC"] "DTI_run"
    (by decide) (by decide) (by decide) (by decide) (by decide) (by decide)
    (by decide) (by decide) (by decide) (by decide) (by decide)

/-- Claim C4 as frozen is false: a filename containing "DTI" and "TOPUP" with
ORIGINAL in ImageType need not classify as `(fmap, acq-topup_dwi)` — the
filename "BOLD_DTI_TOPUP" with ImageType [ORIGINAL, DIS2D] satisfies all of
the claim's conditions yet rule 1 fires first and yields
`(func, task-rest_bold)`. -/
theorem C4_cex :
    strIn "DTI" "BOLD_DTI_TOPUP" = true ∧
    strIn "TOPUP" "BOLD_DTI_TOPUP" = true ∧
    strIn "ORIGINAL" (String.intercalate "_" ["ORIGINAL", "DIS2D"]) = true ∧
    get_bids_category ⟨"", ["ORIGINAL", "DIS2D"]⟩ "BOLD_DTI_TOPUP" =
      some ("func", "task-rest_bold") ∧
    get_bids_category ⟨"", ["ORIGINAL", "DIS2D"]⟩ "BOLD_DTI_TOPUP" ≠
      some ("fmap", "acq-topup_dwi") := by
  decide

/-- Claim C4 (amended): for every record whose filename contains both "DTI"
and "TOPUP" and whose joined ImageType contains "ORIGINAL", the classifier
never returns `(dwi, dwi)`; and it returns `(fmap, acq-topup_dwi)` provided
no earlier rule's filename token (BOLD, AXIAL_T2, COR_T1_IR, COR_T2,
T2_FLAIR, SAG_T1_MPRAGE) occurs in the filename. -/
theorem C4_topup_priority (sq : String) (it : List String) (fname : String)
    (hDTI : strIn "DTI" fname = true)
    (hTOP : strIn "TOPUP" fname = true)
    (hORIG : strIn "ORIGINAL" (String.intercalate "_" it) = true) :
    get_bids_category ⟨sq, it⟩ fname ≠ some ("dwi", "dwi") ∧
    (strIn "BOLD" fname = false → strIn "AXIAL_T2" fname = false →
      strIn "COR_T1_IR" fname = false → strIn "COR_T2" fname = false →
      strIn "T2_FLAIR" fname = false → strIn "SAG_T1_MPRAGE" fname = false →
      get_bids_category ⟨sq, it⟩ fname = some ("fmap", "acq-topup_dwi")) := by
  constructor
  · unfold get_bids_category
    simp only [hDTI, hTOP, hORIG, Bool.true_and, Bool.and_true]
    split_ifs <;> decide
  · intro hBOLD hAX hIR hCT hFL hMP
    simp [get_bids_category, hDTI, hTOP, hORIG, hBOLD, hAX, hIR, hCT, hFL, hMP]

/-- Witness for `C4_topup_priority` at the concrete record
`("DTI_TOPUP", ImageType = [ORIGINAL])`. -/
theorem C4_topup_priority_w :
    get_bids_category ⟨"", ["ORIGINAL"]⟩ "DTI_TOPUP" ≠ some ("dwi", "dwi") ∧
    (strIn "BOLD" "DTI_TOPUP" = false → strIn "AXIAL_T2" "DTI_TOPUP" = false →
      strIn "COR_T1_IR" "DTI_TOPUP" = false → strIn "COR_T2" "DTI_TOPUP" = false →
      strIn "T2_FLAIR" "DTI_TOPUP" = false → strIn "SAG_T1_MPRAGE" "DTI_TOPUP" = false →
      get_bids_category ⟨"", ["ORIGINAL"]⟩ "DTI_TOPUP" =
        some ("fmap", "acq-topup_dwi")) :=
  C4_topup_priority "" ["ORIGINAL"] "DTI_TOPUP" (by decide) (by decide) (by decide)

/-- Claim C7: the filename "AXIAL_T2_SWI_variant" (containing both "AXIAL_T2"
and "SWI") with ImageType [ORIGINAL] classifies as no match — rule 2's "SWI"
exclusion rejects it and no later rule matches. -/
theorem C7_swi_excluded :
    get_bids_category ⟨"", ["ORIGINAL"]⟩ "AXIAL_T2_SWI_variant" = none := by
  decide

/-- Claim C9: the classification result does not depend on the SequenceName
field — two records with identical ImageType but arbitrary SequenceName
values classify identically on every filename. -/
theorem C9_seqname_irrelevant (sq1 sq2 : String) (it : List String) (fname : String) :
    get_bids_category ⟨sq1, it⟩ fname = get_bids_category ⟨sq2, it⟩ fname := rfl

/-- Claim C10: when the joined ImageType contains neither "ORIGINAL" nor
"DERIVED" (in particular when ImageType is empty), every filename classifies
as no match, since every rule requires one of the two markers. -/
theorem C10_no_marker_no_match (sq : String) (it : List String) (fname : String)
    (hO : strIn "ORIGINAL" (String.intercalate "_" it) = false)
    (hD : strIn "DERIVED" (String.intercalate "_" it) = false) :
    get_bids_category ⟨sq, it⟩ fname = none := by
  simp [get_bids_category, hO, hD]

/-- Witness for `C10_no_marker_no_match` at an empty ImageType and the
filename "DTI_dataset". -/
theorem C10_no_marker_no_match_w :
    get_bids_category ⟨"", []⟩ "DTI_dataset" = none :=
  C10_no_marker_no_match "" [] "DTI_dataset" (by decide) (by decide)

/-- Claim C1 concerns a real divergence between spec and code: a matched row
whose record_id is the non-numeric string "abc" passes the startup column
check and the NaN/blank test, so `int(record_id)` raises an uncaught
ValueError — the run aborts instead of falling back to `sub-A1`. -/
theorem C1_nonnumeric_raises :
    checkColumns dfNonNumeric = true ∧
    matchingRows dfNonNumeric 1 "A1" =
      [[Cell.str "X1", Cell.str "A1", Cell.str "abc"]] ∧
    resolveSubject dfNonNumeric "A1" =
      .raised "ValueError: invalid literal for int" ∧
    resolveSubject dfNonNumeric "A1" ≠ .ok ("sub-" ++ "A1") := by
  decide

/-- Claim C2 concerns a real divergence inside the code: a table whose
normalized header is exactly ["accession", "record_id"] passes the startup
check (no configuration error), yet the per-subject lookup reads the column
"newaccession", which is not in the table, so it raises a KeyError instead of
succeeding. -/
theorem C2_check_passes_lookup_raises :
    loadMapping dfAccessionOnly = .ok dfAccessionOnly ∧
    resolveSubject dfAccessionOnly "A1" = .raised "KeyError: newaccession" := by
  decide

/-- Claim C5 as frozen is false: the record_id 12345 is matched and parseable,
but the returned label "sub-RID12345" carries five digits after "sub-RID",
not exactly four — `zfill(4)` only guarantees a minimum width. -/
theorem C5_cex :
    resolveSubject dfBigId "A1" = .ok "sub-RID12345" ∧
    ("sub-RID12345".toList.drop "sub-RID".length).length ≠ 4 := by
  decide

/-- Claim C5 (amended): for every matched row with a usable (parseable)
record-id `n`, the resolver returns `sub-RID` followed by the decimal form of
`n` zero-padded to a minimum width of four characters (exactly four digits
whenever `0 ≤ n < 10000`, more digits kept in full otherwise). -/
theorem C5_rid_label (df : DataFrame) (rawId : String) (i j : Nat)
    (row : List Cell) (rest : List (List Cell)) (n : Int)
    (hi : findCol df "newaccession" = some i)
    (hm : matchingRows df i (pyStrip rawId) = row :: rest)
    (hj : findCol df "record_id" = some j)
    (hu : (isna (cellAt row j) || pyStrip (cellToString (cellAt row j)) == "") = false)
    (hn : pyInt (cellAt row j) = .ok n) :
    resolveSubject df rawId = .ok ("sub-RID" ++ zfill 4 (toString n)) ∧
    4 ≤ (zfill 4 (toString n)).length := by
  refine ⟨?_, zfill_length 4 (toString n)⟩
  simp [resolveSubject, hi, hm, hj, hu, hn]

/-- Witness for `C5_rid_label`: the spec's own example, accession "A123" with
record_id 42, yields `sub-RID0042`. -/
theorem C5_rid_label_w :
    resolveSubject ⟨["newaccession", "record_id"], [[Cell.str "A123", Cell.int 42]]⟩
        "A123" = .ok ("sub-RID" ++ zfill 4 (toString (42 : Int))) ∧
    4 ≤ (zfill 4 (toString (42 : Int))).length :=
  C5_rid_label ⟨["newaccession", "record_id"], [[Cell.str "A123", Cell.int 42]]⟩
    "A123" 0 1 [Cell.str "A123", Cell.int 42] [] 42
    (by decide) (by decide) (by decide) (by decide) (by decide)

/-- Claim C6 as frozen is false in its "exactly when" direction: for the raw
identifier "RID0042" mapped to record_id 42, the resolver takes the usable
record-id branch (the row matches, its record_id is neither NaN nor blank)
and still returns the string `sub-` followed by the raw identifier. -/
theorem C6_cex :
    resolveSubject dfRid "RID0042" = .ok ("sub-" ++ "RID0042") ∧
    findCol dfRid "newaccession" = some 0 ∧
    matchingRows dfRid 0 "RID0042" ≠ [] ∧
    isna (cellAt [Cell.str "RID0042", Cell.int 42] 1) = false ∧
    pyStrip (cellToString (cellAt [Cell.str "RID0042", Cell.int 42] 1)) ≠ "" := by
  decide

/-- Claim C6 (amended): the resolver returns `sub-` followed by the trimmed
raw identifier whenever no table row's trimmed stringified accession equals
the trimmed raw identifier, or the first matching row's record-id is NaN or
blank after trimming; a coincidental equality with a `sub-RID...` label from
the usable branch is possible when the raw identifier itself has that form. -/
theorem C6_fallback (df : DataFrame) (rawId : String) (i : Nat)
    (hi : findCol df "newaccession" = some i)
    (hcond : matchingRows df i (pyStrip rawId) = [] ∨
      (∃ row rest j, matchingRows df i (pyStrip rawId) = row :: rest ∧
        findCol df "record_id" = some j ∧
        (isna (cellAt row j) || pyStrip (cellToString (cellAt row j)) == "") = true)) :
    resolveSubject df rawId = .ok ("sub-" ++ pyStrip rawId) := by
  rcases hcond with h | ⟨row, rest, j, hm, hj, hu⟩
  · simp [resolveSubject, hi, h]
  · simp [resolveSubject, hi, hm, hj, hu]

/-- Witness for `C6_fallback`: the identifier "Z999" has no row in `dfRid`,
so the resolver falls back to `sub-Z999`. -/
theorem C6_fallback_w :
    resolveSubject dfRid "Z999" = .ok ("sub-" ++ pyStrip "Z999") :=
  C6_fallback dfRid "Z999" 0 (by decide) (Or.inl (by decide))

/-- Claim C8: the gradient-table sidecar extensions are copied exactly when
the classified suffix is "dwi" and both sidecars exist; moreover `.bval` is
copied exactly when `.bvec` is, so a missing one suppresses both. -/
theorem C8_dwi_sidecars (s : String) (bval bvec : Bool) :
    ((".bval" ∈ copiedExtensions s bval bvec ∧ ".bvec" ∈ copiedExtensions s bval bvec) ↔
      (s = "dwi" ∧ bval = true ∧ bvec = true)) ∧
    ((".bval" ∈ copiedExtensions s bval bvec) ↔ (".bvec" ∈ copiedExtensions s bval bvec)) := by
  by_cases h : s = "dwi" <;> cases bval <;> cases bvec <;>
    simp [copiedExtensions, h]

end NiftiToBids
